import Mathlib

/-
Verification of the status-string decoder and worker-thread run logic of
src/src/FilterThread.cpp (G'MIC-Qt, namespace GmicQt).

The status decoder `status2Items` is embedded over `List Char` (the C code
scans a NUL-free `const char *` obtained from `QString::toLocal8Bit`).
Items of the produced `gmic_list<char>` are embedded as `List Char`:
a token item carries the segment text followed by the terminating NUL
character, a visibility item is a single character.
-/

namespace GmicQt

/-- The NUL character: the C `char` value 0 used both as the string
terminator of token items and as the "no visibility suffix" marker. -/
def nulChar : Char := Char.ofNat 0

/-- Embedding of the item construction at FilterThread.cpp:119-120: in
visibility mode the item is the single visibility character, otherwise it is
the extracted segment text followed by a terminating NUL character. -/
def emitItem (output_visibility : Bool) (seg : List Char) (v : Char) : List Char :=
  if output_visibility then [v] else seg ++ [nulChar]

/-- Embedding of the scanning loop of `status2Items`
(FilterThread.cpp:100-126).  The loop index `k` and segment bounds
`pk`/`ck` are replaced by recursion over the remaining input:
`inside` is the `is_inside` flag, `seg` holds the characters scanned since
the segment-opening brace (the C code's `status[pk..k-1]`), and `acc` is the
output list built so far.

  * outside a segment: an opening brace that is the last character returns
    the empty list (line 108); otherwise it enters a segment (lines 109-110);
    any other character, a closing brace included, returns the empty list
    (lines 114, 123);
  * inside a segment: a closing brace closes it; when at least two
    characters follow and they are an underscore and a digit in 0..2
    (`k<len-2 && status[k+1]==95 && ...`, line 118) that digit is the
    visibility and both suffix characters are consumed (`k+=2`), otherwise
    the visibility is the character 0 and nothing is consumed; every other
    character, an opening brace included, is part of the segment text;
  * exhausted input returns `acc` (line 126), whether or not a segment is
    still open. -/
def scanItems (output_visibility : Bool) :
    Bool → List Char → List (List Char) → List Char → List (List Char)
  | _, _, acc, [] => acc
  | false, _, acc, c :: rest =>
      if c = '{' then
        if rest = [] then [] else scanItems output_visibility true [] acc rest
      else []
  | true, seg, acc, c :: rest =>
      if c = '}' then
        match rest with
        | [] => acc ++ [emitItem output_visibility seg nulChar]
        | [r1] =>
            scanItems output_visibility false []
              (acc ++ [emitItem output_visibility seg nulChar]) [r1]
        | r1 :: r2 :: rest2 =>
            if r1 = '_' ∧ ('0' ≤ r2 ∧ r2 ≤ '2') then
              scanItems output_visibility false []
                (acc ++ [emitItem output_visibility seg r2]) rest2
            else
              scanItems output_visibility false []
                (acc ++ [emitItem output_visibility seg nulChar]) (r1 :: r2 :: rest2)
      else scanItems output_visibility true (seg ++ [c]) acc rest

/-- Embedding of `status2Items` (FilterThread.cpp:95-127): an empty status
or one whose first character is not an opening brace yields the empty list
(line 96); otherwise the whole string is scanned from the outside state. -/
def status2Items (status : List Char) (output_visibility : Bool) : List (List Char) :=
  match status with
  | [] => []
  | c :: rest =>
      if c = '{' then scanItems output_visibility false [] [] (c :: rest) else []

/-- Embedding of `FilterThread::status2StringList` (FilterThread.cpp:129-136):
decode in token mode and read each item as the C string it carries
(`QString(clist[l].data())` stops at the first NUL character). -/
def status2StringList (status : List Char) : List String :=
  (status2Items status false).map (fun item => String.mk (item.takeWhile (fun c => c ≠ nulChar)))

/-- Embedding of `FilterThread::status2Visibilities`
(FilterThread.cpp:138-148): decode in visibility mode and map each item's
first character `c` to `c - '0'` when `c` is non-zero and to
`AbstractParameter::VisibilityState::Unspecified` otherwise.  That enum
lives in FilterParameters/AbstractParameter.h, outside this source slice,
so its integer value is the parameter `unspec`. -/
def status2Visibilities (unspec : Int) (status : List Char) : List Int :=
  (status2Items status true).map (fun item =>
    let c := item.headD nulChar
    if c = nulChar then unspec else (c.toNat : Int) - ('0'.toNat : Int))

/-- The status text used by the spec's decoder examples: `{foo}{bar_1}`. -/
def exFooBar : List Char :=
  ['{', 'f', 'o', 'o', '}', '{', 'b', 'a', 'r', '_', '1', '}']

/-- The status text `{foo}{bar}_1`: the visibility suffix placed where the
scanning loop actually looks for it, after a closing brace. -/
def exFooBarSuffix : List Char :=
  ['{', 'f', 'o', 'o', '}', '{', 'b', 'a', 'r', '}', '_', '1']

/-- The unterminated status text `{foo}`-less: `{foo` without its closing
brace. -/
def exUnterminated : List Char := ['{', 'f', 'o', 'o']

/-- The status text `foo}`: a closing brace with no matching opening one. -/
def exStrayClose : List Char := ['f', 'o', 'o', '}']

/-- The status text `{a}{bc`: a complete segment followed by a segment that
is opened, given content, and never closed. -/
def exPartial : List Char := ['{', 'a', '}', '{', 'b', 'c']

/-- The status text `{a}{`: a complete segment followed by an opening brace
that is the last character. -/
def exOpenLast : List Char := ['{', 'a', '}', '{']

/-- State of a `FilterThread` object (FilterThread.h fields as initialized
and mutated by FilterThread.cpp).  The image payloads are opaque to this
file — the interpreter that fills them is an external library — so the
element types `Img` (a `gmic_image<float>`) and `Name` (a `gmic_image<char>`
name entry) are type parameters; `gmic_list` buffers become Lean lists.  The
persistent-memory output buffer `gmic_image<char>` becomes a `List Char`.
The progress value only ever receives the exact constants 0 and -1 from this
file (the interpreter writes through a pointer whose final value the model
records), so it is embedded as `Int`.  `QElapsedTimer _startTime` is real
time and is not modelled. -/
structure FilterThread (Img Name : Type) where
  command : String
  arguments : String
  environment : String
  images : List Img
  imageNames : List Name
  persistentMemoryOutput : List Char
  errorMessage : String
  failed : Bool
  gmicAbort : Bool
  gmicProgress : Int
  gmicStatus : String
  logSuffix : String

/-- Embedding of the constructor `FilterThread::FilterThread`
(FilterThread.cpp:40-52): fresh empty buffers, `_gmicAbort = false`,
`_failed = false`, `_gmicProgress = 0.0f`; the `QString` members
`_errorMessage`, `_gmicStatus` and `_logSuffix` are default-initialized to
the empty string. -/
def FilterThread.init (Img Name : Type) (command arguments environment : String) :
    FilterThread Img Name where
  command := command
  arguments := arguments
  environment := environment
  images := []
  imageNames := []
  persistentMemoryOutput := []
  errorMessage := ""
  failed := false
  gmicAbort := false
  gmicProgress := 0
  gmicStatus := ""
  logSuffix := ""

/-- Embedding of the accessor `FilterThread::progress`
(FilterThread.cpp:180-183). -/
def FilterThread.progress {Img Name : Type} (t : FilterThread Img Name) : Int :=
  t.gmicProgress

/-- Embedding of `FilterThread::abortGmic` (FilterThread.cpp:197-200):
set the shared abort flag. -/
def FilterThread.abortGmic {Img Name : Type} (t : FilterThread Img Name) :
    FilterThread Img Name :=
  { t with gmicAbort := true }

/-- Outcome of the single interpreter invocation
`gmicInstance.run(...)` (FilterThread.cpp:225-227), which this repository
treats as an opaque external call.  On normal return the engine has
rewritten the image and name buffers, exposes a status string and the value
of its internal `_persistent` variable, and has left final values in the
progress/abort locations it received by pointer.  On failure it throws a
`gmic_exception` carrying a message (`e.what()`); the buffers' contents at
the throw point are irrelevant because the catch block discards them. -/
inductive GmicOutcome (Img Name : Type) where
  | ok (images : List Img) (imageNames : List Name) (status : String)
      (persistent : List Char) (finalProgress : Int) (finalAbort : Bool)
  | exn (message : String) (finalProgress : Int) (finalAbort : Bool)

/-- Modelled from the spec: `appendWithSpace` is declared in Misc.h, outside
this source slice.  Per the spec the full command text is "an output-mode
preamble + base command + arguments"; the helper joins two pieces with a
separating space unless one of them is empty. -/
def appendWithSpace (s t : String) : String :=
  if s = "" ∨ t = "" then s ++ t else s ++ " " ++ t

/-- The full command line assembled by `FilterThread::run`
(FilterThread.cpp:209-211): the output-message-mode preamble
(`commandFromOutputMessageMode(Settings::outputMessageMode())`, computed by
code outside this slice and therefore a parameter here), then the base
command, then the arguments, joined by `appendWithSpace`. -/
def runCommandLine (preamble command arguments : String) : String :=
  appendWithSpace (appendWithSpace preamble command) arguments

/-- Embedding of `FilterThread::run` (FilterThread.cpp:202-236).
`engine` is the opaque interpreter invocation, a function of the command
line it is handed (the construction of the `gmic` instance, the persistent
memory input and the `_host`/`_tk` variables at lines 215-224 involve only
external state and are folded into it).  The body: clear the error message
and the failed flag, assemble the command line, reset the abort flag and set
the progress to -1, invoke the engine; on normal return store the new image
and name buffers, the status string and the `_persistent` value; on
`gmic_exception` empty both image buffers (`assign()`), record the message
and mark the run failed.  Logging is a side channel and is not modelled. -/
def FilterThread.run {Img Name : Type} (preamble : String)
    (engine : String → GmicOutcome Img Name) (t : FilterThread Img Name) :
    FilterThread Img Name :=
  let t1 : FilterThread Img Name := { t with errorMessage := "", failed := false }
  let fullCommandLine := runCommandLine preamble t.command t.arguments
  let t2 : FilterThread Img Name := { t1 with gmicAbort := false, gmicProgress := -1 }
  match engine fullCommandLine with
  | .ok images imageNames status persistent p a =>
      { t2 with
        images := images
        imageNames := imageNames
        gmicStatus := status
        persistentMemoryOutput := persistent
        gmicProgress := p
        gmicAbort := a }
  | .exn message p a =>
      { t2 with
        images := []
        imageNames := []
        errorMessage := message
        failed := true
        gmicProgress := p
        gmicAbort := a }

/-- Unfolding lemma: exhausted input returns the accumulator. -/
theorem scanItems_nil (vis inside : Bool) (seg : List Char) (acc : List (List Char)) :
    scanItems vis inside seg acc [] = acc := by
  cases inside <;> rfl

/-- Unfolding lemma: outside a segment, an opening brace that is not the
last character enters a segment. -/
theorem scanItems_out_lbrace (vis : Bool) (seg : List Char) (acc : List (List Char))
    (rest : List Char) (h : rest ≠ []) :
    scanItems vis false seg acc ('{' :: rest) = scanItems vis true [] acc rest := by
  simp [scanItems, h]

/-- Unfolding lemma: outside a segment, an opening brace that is the last
character aborts with the empty list. -/
theorem scanItems_out_lbrace_last (vis : Bool) (seg : List Char) (acc : List (List Char)) :
    scanItems vis false seg acc ['{'] = [] := by
  simp [scanItems]

/-- Unfolding lemma: outside a segment, any character other than an opening
brace aborts with the empty list. -/
theorem scanItems_out_other (vis : Bool) (seg : List Char) (acc : List (List Char))
    (c : Char) (rest : List Char) (h : c ≠ '{') :
    scanItems vis false seg acc (c :: rest) = [] := by
  simp [scanItems, h]

/-- Unfolding lemma: inside a segment, any character other than a closing
brace is appended to the segment text. -/
theorem scanItems_in_other (vis : Bool) (seg : List Char) (acc : List (List Char))
    (c : Char) (rest : List Char) (h : c ≠ '}') :
    scanItems vis true seg acc (c :: rest) = scanItems vis true (seg ++ [c]) acc rest := by
  match rest with
  | [] => simp [scanItems, h]
  | [r1] => simp [scanItems, h]
  | r1 :: r2 :: rest2 => simp [scanItems, h]

/-- Unfolding lemma: a closing brace at the very end of the input emits the
segment with visibility 0 and returns. -/
theorem scanItems_in_close_nil (vis : Bool) (seg : List Char) (acc : List (List Char)) :
    scanItems vis true seg acc ['}'] = acc ++ [emitItem vis seg nulChar] := by
  simp [scanItems]

/-- Unfolding lemma: a closing brace followed by exactly one character emits
the segment with visibility 0 and rescans that character outside. -/
theorem scanItems_in_close_one (vis : Bool) (seg : List Char) (acc : List (List Char))
    (r1 : Char) :
    scanItems vis true seg acc ['}', r1] =
      scanItems vis false [] (acc ++ [emitItem vis seg nulChar]) [r1] := by
  simp [scanItems]

/-- Unfolding lemma: a closing brace followed by an underscore and a digit
in 0..2 emits that digit as the visibility and consumes both characters. -/
theorem scanItems_in_close_suffix (vis : Bool) (seg : List Char) (acc : List (List Char))
    (r1 r2 : Char) (rest2 : List Char) (h : r1 = '_' ∧ ('0' ≤ r2 ∧ r2 ≤ '2')) :
    scanItems vis true seg acc ('}' :: r1 :: r2 :: rest2) =
      scanItems vis false [] (acc ++ [emitItem vis seg r2]) rest2 := by
  simp [scanItems, h]

/-- Unfolding lemma: a closing brace followed by two or more characters that
are not an underscore-digit suffix emits visibility 0 and consumes nothing. -/
theorem scanItems_in_close_nosuffix (vis : Bool) (seg : List Char) (acc : List (List Char))
    (r1 r2 : Char) (rest2 : List Char) (h : ¬(r1 = '_' ∧ ('0' ≤ r2 ∧ r2 ≤ '2'))) :
    scanItems vis true seg acc ('}' :: r1 :: r2 :: rest2) =
      scanItems vis false [] (acc ++ [emitItem vis seg nulChar]) (r1 :: r2 :: rest2) := by
  simp [scanItems, h]

/-- The scanning loop takes the same control path in both output modes: the
two modes turn equal-length accumulators into equal-length results.  The
segment buffers may differ arbitrarily because they never steer control. -/
theorem scanItems_length_mode (n : Nat) :
    ∀ input : List Char, input.length ≤ n →
    ∀ (inside : Bool) (seg seg' : List Char) (acc acc' : List (List Char)),
      acc.length = acc'.length →
      (scanItems true inside seg acc input).length =
        (scanItems false inside seg' acc' input).length := by
  induction n with
  | zero =>
    intro input hlen inside seg seg' acc acc' hacc
    have : input = [] := List.length_eq_zero.mp (Nat.le_zero.mp hlen)
    subst this
    simp [scanItems_nil, hacc]
  | succ n ih =>
    intro input hlen inside seg seg' acc acc' hacc
    match input with
    | [] => simp [scanItems_nil, hacc]
    | c :: rest =>
      have hrest : rest.length ≤ n := Nat.le_of_succ_le_succ hlen
      cases inside with
      | false =>
        by_cases hc : c = '{'
        · subst hc
          match rest with
          | [] => simp [scanItems_out_lbrace_last]
          | r :: rest1 =>
            rw [scanItems_out_lbrace true seg acc (r :: rest1) (by simp),
              scanItems_out_lbrace false seg' acc' (r :: rest1) (by simp)]
            exact ih (r :: rest1) hrest true [] [] acc acc' hacc
        · rw [scanItems_out_other true seg acc c rest hc,
            scanItems_out_other false seg' acc' c rest hc]
      | true =>
        by_cases hc : c = '}'
        · subst hc
          match rest with
          | [] => simp [scanItems_in_close_nil, hacc]
          | [r1] =>
            rw [scanItems_in_close_one, scanItems_in_close_one]
            exact ih [r1] hrest false [] []
              (acc ++ [emitItem true seg nulChar])
              (acc' ++ [emitItem false seg' nulChar]) (by simp [hacc])
          | r1 :: r2 :: rest2 =>
            by_cases hs : r1 = '_' ∧ ('0' ≤ r2 ∧ r2 ≤ '2')
            · rw [scanItems_in_close_suffix true seg acc r1 r2 rest2 hs,
                scanItems_in_close_suffix false seg' acc' r1 r2 rest2 hs]
              exact ih rest2 (by simp at hrest; omega) false [] []
                (acc ++ [emitItem true seg r2])
                (acc' ++ [emitItem false seg' r2]) (by simp [hacc])
            · rw [scanItems_in_close_nosuffix true seg acc r1 r2 rest2 hs,
                scanItems_in_close_nosuffix false seg' acc' r1 r2 rest2 hs]
              exact ih (r1 :: r2 :: rest2) hrest false [] []
                (acc ++ [emitItem true seg nulChar])
                (acc' ++ [emitItem false seg' nulChar]) (by simp [hacc])
        · rw [scanItems_in_other true seg acc c rest hc,
            scanItems_in_other false seg' acc' c rest hc]
          exact ih rest hrest true (seg ++ [c]) (seg' ++ [c]) acc acc' hacc

/-- C1 (counterexample): decoding `{foo}{bar_1}` in visibility mode does
not yield a first entry with visibility 0 and a second with visibility 1 —
the scanning loop looks for the `_V` suffix after the closing brace, so the
`_1` written inside the braces stays token text and both entries carry
visibility 0 (the character 0). -/
theorem status2Items_fooBar_visibility_cex :
    status2Items exFooBar true ≠ [[nulChar], ['1']] := by decide

/-- C1 (amended): decoding `{foo}{bar_1}` in visibility mode yields exactly
two single-character entries, both with visibility 0, because the `_V`
suffix is only recognized after a closing brace; written there, as in
`{foo}{bar}_1`, the second entry does have visibility 1.  Through
`status2Visibilities`, both entries of the original input map to the
Unspecified value, whatever integer that enum constant is. -/
theorem status2Items_fooBar_visibility :
    status2Items exFooBar true = [[nulChar], [nulChar]] ∧
    status2Items exFooBarSuffix true = [[nulChar], ['1']] ∧
    ∀ unspec : Int, status2Visibilities unspec exFooBar = [unspec, unspec] :=
  ⟨by decide, by decide, fun _ => rfl⟩

/-- C2: decoding `{foo}{bar_1}` in token mode, as exposed by
`status2StringList`, yields exactly the tokens `foo` and `bar_1`: the `_1`
suffix stays part of the second token's text. -/
theorem status2StringList_fooBar :
    status2StringList exFooBar = ["foo", "bar_1"] ∧
    status2Items exFooBar false = [['f', 'o', 'o', nulChar], ['b', 'a', 'r', '_', '1', nulChar]] := by
  decide

/-- C3 (counterexample): an opening brace left unterminated at the end of
the input does not always discard the previously extracted segments: for
`{a}{bc` the scan ends while still inside the second segment and returns
the completed segment `a`, in both modes, rather than the empty list. -/
theorem status2Items_partial_not_empty :
    status2Items exPartial false ≠ [] ∧ status2Items exPartial true ≠ [] := by
  decide

/-- C3 (amended): the decoder returns the empty list immediately — however
many well-formed segments precede, whatever the mode — when it meets, while
outside a segment, a closing brace or any other non-opening-brace
character, or an opening brace that is the last character of the input;
`{foo` and `foo}` both decode to the empty list.  But when input ends while
still inside a segment whose opening brace was not the last character, the
previously extracted segments are returned: `{a}{bc` decodes to the single
segment `a`. -/
theorem status2Items_violation_empty (vis : Bool) (seg : List Char)
    (acc : List (List Char)) (c : Char) (rest : List Char) (hc : c ≠ '{') :
    scanItems vis false seg acc (c :: rest) = [] ∧
    scanItems vis false seg acc ['{'] = [] ∧
    status2Items exUnterminated vis = [] ∧
    status2Items exStrayClose vis = [] ∧
    status2Items exPartial vis = (if vis then [[nulChar]] else [['a', nulChar]]) :=
  ⟨scanItems_out_other vis seg acc c rest hc,
   scanItems_out_lbrace_last vis seg acc,
   by cases vis <;> decide, by cases vis <;> decide, by cases vis <;> decide⟩

/-- C3 (witness): the amended statement applied in token mode to a closing
brace met outside a segment after one extracted segment. -/
theorem status2Items_violation_empty_witness :
    ('}' ≠ '{') ∧
    (scanItems false false [] [['a', nulChar]] ['}'] = [] ∧
     scanItems false false [] [['a', nulChar]] ['{'] = [] ∧
     status2Items exUnterminated false = [] ∧
     status2Items exStrayClose false = [] ∧
     status2Items exPartial false = (if false then [[nulChar]] else [['a', nulChar]])) :=
  ⟨by decide, status2Items_violation_empty false [] [['a', nulChar]] '}' [] (by decide)⟩

/-- C4: when the interpreter invocation throws, `run` leaves the failed
flag true, the error message equal to the exception's text, and both the
image list and the image-name list emptied. -/
theorem run_exn_spec {Img Name : Type} (preamble : String)
    (engine : String → GmicOutcome Img Name) (t : FilterThread Img Name)
    (message : String) (p : Int) (a : Bool)
    (h : engine (runCommandLine preamble t.command t.arguments) =
      GmicOutcome.exn message p a) :
    (t.run preamble engine).failed = true ∧
    (t.run preamble engine).errorMessage = message ∧
    (t.run preamble engine).images = [] ∧
    (t.run preamble engine).imageNames = [] := by
  simp [FilterThread.run, h]

/-- C4 (witness): a concrete throwing engine run on a fresh thread. -/
theorem run_exn_spec_witness :
    ((FilterThread.init Nat Nat "c" "a" "e").run "p"
        (fun _ => GmicOutcome.exn "boom" 3 true)).failed = true ∧
    ((FilterThread.init Nat Nat "c" "a" "e").run "p"
        (fun _ => GmicOutcome.exn "boom" 3 true)).errorMessage = "boom" ∧
    ((FilterThread.init Nat Nat "c" "a" "e").run "p"
        (fun _ => GmicOutcome.exn "boom" 3 true)).images = [] ∧
    ((FilterThread.init Nat Nat "c" "a" "e").run "p"
        (fun _ => GmicOutcome.exn "boom" 3 true)).imageNames = [] :=
  run_exn_spec "p" (fun _ => GmicOutcome.exn "boom" 3 true)
    (FilterThread.init Nat Nat "c" "a" "e") "boom" 3 true rfl

/-- C5: when the interpreter invocation returns normally, `run` leaves the
failed flag false, the error message empty, the stored status string equal
to the engine's status output, and the persistent-memory output buffer
holding the engine's `_persistent` value. -/
theorem run_ok_spec {Img Name : Type} (preamble : String)
    (engine : String → GmicOutcome Img Name) (t : FilterThread Img Name)
    (images : List Img) (imageNames : List Name) (status : String)
    (persistent : List Char) (p : Int) (a : Bool)
    (h : engine (runCommandLine preamble t.command t.arguments) =
      GmicOutcome.ok images imageNames status persistent p a) :
    (t.run preamble engine).failed = false ∧
    (t.run preamble engine).errorMessage = "" ∧
    (t.run preamble engine).gmicStatus = status ∧
    (t.run preamble engine).persistentMemoryOutput = persistent := by
  simp [FilterThread.run, h]

/-- C5 (witness): a concrete normally-returning engine run on a fresh
thread. -/
theorem run_ok_spec_witness :
    ((FilterThread.init Nat Nat "c" "a" "e").run "p"
        (fun _ => GmicOutcome.ok [7] [5] "st" ['m'] 9 false)).failed = false ∧
    ((FilterThread.init Nat Nat "c" "a" "e").run "p"
        (fun _ => GmicOutcome.ok [7] [5] "st" ['m'] 9 false)).errorMessage = "" ∧
    ((FilterThread.init Nat Nat "c" "a" "e").run "p"
        (fun _ => GmicOutcome.ok [7] [5] "st" ['m'] 9 false)).gmicStatus = "st" ∧
    ((FilterThread.init Nat Nat "c" "a" "e").run "p"
        (fun _ => GmicOutcome.ok [7] [5] "st" ['m'] 9 false)).persistentMemoryOutput = ['m'] :=
  run_ok_spec "p" (fun _ => GmicOutcome.ok [7] [5] "st" ['m'] 9 false)
    (FilterThread.init Nat Nat "c" "a" "e") [7] [5] "st" ['m'] 9 false rfl

/-- C6: every status whose first character is not an opening brace — the
empty status included — decodes to the empty list, in both modes. -/
theorem status2Items_no_lbrace (status : List Char) (vis : Bool)
    (h : status.head? ≠ some '{') : status2Items status vis = [] := by
  match status with
  | [] => rfl
  | c :: rest =>
    have hc : c ≠ '{' := by simpa using h
    simp [status2Items, hc]

/-- C6 (witness): the empty status decodes to the empty list. -/
theorem status2Items_no_lbrace_witness :
    (([] : List Char).head? ≠ some '{') ∧ status2Items [] true = [] :=
  ⟨by decide, status2Items_no_lbrace [] true (by decide)⟩

/-- C7 (counterexample): a freshly constructed `FilterThread`, on which
`run` has not been called, reports a progress of 0, not -1: the constructor
initializes `_gmicProgress` to `0.0f`. -/
theorem progress_init_ne_neg_one :
    (FilterThread.init Nat Nat "" "" "").progress ≠ -1 := by decide

/-- C7 (amended): for a freshly constructed `FilterThread` on which `run`
has not been called, `progress` yields 0; the value -1 is assigned only
inside `run`, immediately before the interpreter invocation. -/
theorem progress_init_eq_zero (Img Name : Type) (command arguments environment : String) :
    (FilterThread.init Img Name command arguments environment).progress = 0 := rfl

/-- C8: setting the abort flag by itself raises no error and does not set
the failed flag, and a subsequent `run` — which resets the flag before
handing it to the interpreter — is entirely unaffected by it: the abort
flag is only advisory input to the interpreter. -/
theorem abortGmic_advisory {Img Name : Type} (preamble : String)
    (engine : String → GmicOutcome Img Name) (t : FilterThread Img Name) :
    t.abortGmic.failed = t.failed ∧
    t.abortGmic.errorMessage = t.errorMessage ∧
    t.abortGmic.run preamble engine = t.run preamble engine :=
  ⟨rfl, rfl, rfl⟩

/-- C9: for every status string, token mode and visibility mode decode to
lists of the same length: the mode flag changes what each segment emits,
never how many segments are emitted. -/
theorem status2Items_mode_length (status : List Char) :
    (status2Items status true).length = (status2Items status false).length := by
  match status with
  | [] => rfl
  | c :: rest =>
    by_cases hc : c = '{'
    · simp only [status2Items, if_pos hc]
      exact scanItems_length_mode (c :: rest).length (c :: rest) le_rfl false [] [] [] [] rfl
    · simp [status2Items, hc]

/-- C10: an opening brace met outside a segment as the last character of
the input makes the scan return the empty list immediately, discarding
every segment already extracted; in particular `{a}{` decodes to the empty
list in both modes although `{a}` is a complete segment. -/
theorem scanItems_open_last_empty (vis : Bool) (seg : List Char)
    (acc : List (List Char)) :
    scanItems vis false seg acc ['{'] = [] ∧ status2Items exOpenLast vis = [] :=
  ⟨scanItems_out_lbrace_last vis seg acc, by cases vis <;> decide⟩

end GmicQt
